import Mathlib

/-!
Verification of the Promptify video-editing backend (`src/main.js`).

The development shallowly embeds the orchestration core of the backend:
the time-resolution utilities, the overlay prompt interpreter, the action
validator, and the per-route handlers (cut, add-overlay, slow-motion,
extract-audio, add-subtitles, remove-segment, export, parse-prompt).

Conventions of the embedding:
* JS numbers that can only hold nonnegative whole seconds are modelled as
  `Nat`; values that may be negative as `Int`; a possibly-NaN value as
  `Option Int` with `none` standing for NaN (all NaN comparisons are false).
  Probed durations are modelled in whole seconds (the handlers only ever
  format them through `secondsToTime`, which floors).
* Filesystem and process effects are recorded as an ordered trace of
  `FsEff` events; external outcomes (file existence, probe results,
  transcoding exit codes) are supplied by an `Oracle`.
* A successful transcoder invocation writing path `p` is recorded as
  `FsEff.ffmpeg p`; a failing invocation records no file creation.
-/

namespace Promptify

/-! ## ASCII / character helpers -/

/-- ASCII lower-casing, as performed by `toLowerCase()` and the `i` regex
flag on the ASCII strings this code handles. -/
def asciiLower (c : Char) : Char :=
  if 'A' ≤ c ∧ c ≤ 'Z' then Char.ofNat (c.toNat + 32) else c

def lowerList (cs : List Char) : List Char := cs.map asciiLower

def strLower (s : String) : String := String.mk (lowerList s.data)

/-- The single-quote character, `'`. -/
def sq : Char := Char.ofNat 39

/-- JS `\s` whitespace class (on the ASCII range). -/
def isWsChar (c : Char) : Bool :=
  c == ' ' || c == '\t' || c == '\n' || c == '\r' || c == Char.ofNat 11 || c == Char.ofNat 12

/-- JS `\w` word-character class (ASCII). -/
def isWordChar (c : Char) : Bool := c.isAlpha || c.isDigit || c == '_'

/-- Value of a nonempty decimal-digit string. -/
def digitsValN (cs : List Char) : Nat :=
  cs.foldl (fun acc c => acc * 10 + (c.toNat - 48)) 0

/-- Does `hay` contain `needle` as a contiguous sublist? -/
def listContains (hay needle : List Char) : Bool :=
  (List.range (hay.length + 1)).any (fun i => needle.isPrefixOf (hay.drop i))

/-- Case-insensitive containment test, i.e. JS `/pat/i.test(s)` for a plain
literal pattern (`pat` is given lower-case). -/
def strContainsCI (s pat : String) : Bool := listContains (lowerList s.data) pat.data

/-- Case-insensitive prefix test; `pat` is given lower-case. -/
def prefixCI (pat : List Char) (cs : List Char) : Bool :=
  pat.isPrefixOf (lowerList cs)

/-- Split a character list on a separator character (JS `split(sep)`). -/
def splitCharAux (sep : Char) : List Char → List Char → List (List Char)
  | [], acc => [acc.reverse]
  | c :: rest, acc =>
    if c = sep then acc.reverse :: splitCharAux sep rest []
    else splitCharAux sep rest (c :: acc)

def splitOnChar (sep : Char) (s : String) : List String :=
  (splitCharAux sep s.data []).map String.mk

/-! ## JS number coercions -/

/-- Models the JS `Number(...)` coercion on the string shapes that reach it in
this code base: the empty string coerces to `0`, (optionally negated)
decimal-digit strings to their value, and anything else to NaN (`none`).
Fractional and exponent literals never reach `Number` here. -/
def jsNumber (s : String) : Option Int :=
  match s.data with
  | [] => some 0
  | '-' :: rest =>
    if rest ≠ [] ∧ rest.all Char.isDigit then some (-(digitsValN rest : Int)) else none
  | cs => if cs.all Char.isDigit then some (digitsValN cs : Int) else none

/-- Models JS `parseFloat` on the plain decimal literals used for the speed
field (`"0.5"`, `"2"`, `".25"`, ...), returned as an exact scaled decimal
`(n, d)` denoting `n / 10 ^ d`; other shapes map to NaN (`none`).
Comparing such a value against the whole numbers 0 and 5 has the same
outcome in the float and the scaled-decimal reading. -/
def jsParseFloat (s : String) : Option (Nat × Nat) :=
  match splitOnChar '.' s with
  | [a] =>
    if a.data ≠ [] ∧ a.data.all Char.isDigit then some (digitsValN a.data, 0)
    else none
  | [a, b] =>
    if a.data.all Char.isDigit ∧ b.data.all Char.isDigit ∧ (a.data ≠ [] ∨ b.data ≠ []) then
      some (digitsValN a.data * 10 ^ b.data.length + digitsValN b.data, b.data.length)
    else none
  | _ => none

/-- JS `a >= b` on possibly-NaN numbers: false whenever either side is NaN. -/
def jsGE : Option Int → Option Int → Bool
  | some a, some b => decide (b ≤ a)
  | _, _ => false

/-- JS `a > b` on possibly-NaN numbers. -/
def jsGT : Option Int → Option Int → Bool
  | some a, some b => decide (b < a)
  | _, _ => false

/-- JS `a <= b` on possibly-NaN numbers. -/
def jsLE (a b : Option Int) : Bool := jsGE b a

/-- JS `a > d` against a plain (non-NaN) number `d`. -/
def jsGTNat : Option Int → Nat → Bool
  | some a, d => decide ((d : Int) < a)
  | none, _ => false

/-! ## Time conversion utilities (main.js lines 110-149) -/

/-- `String(n).padStart(2, "0")` for a natural number. -/
def pad2 (n : Nat) : String :=
  let ds := (toString n).data
  String.mk (if ds.length < 2 then List.replicate (2 - ds.length) '0' ++ ds else ds)

/-- `secondsToTime` (main.js lines 121-126) on a nonnegative whole number of
seconds. -/
def secondsToTime (seconds : Nat) : String :=
  pad2 (seconds / 3600) ++ ":" ++ pad2 (seconds % 3600 / 60) ++ ":" ++ pad2 (seconds % 60)

/-- `timeToSeconds` (main.js lines 113-116): split on `:`, coerce the first
three components through `Number`, and combine; a missing or non-numeric
component makes the whole result NaN. -/
def timeToSeconds (time : String) : Option Int :=
  match splitOnChar ':' time with
  | h :: m :: s :: _ =>
    match jsNumber h, jsNumber m, jsNumber s with
    | some hv, some mv, some sv => some (hv * 3600 + mv * 60 + sv)
    | _, _, _ => none
  | _ => none

/-- `timeStr.startsWith("end-")`. -/
def strStartsWithEndDash (s : String) : Bool := ['e', 'n', 'd', '-'].isPrefixOf s.data

/-- `timeStr.replace("end-", "")` for a string that starts with `end-`. -/
def strDropEndDash (s : String) : String := String.mk (s.data.drop 4)

/-- `resolveRelativeTime` (main.js lines 131-149). When the `end-` offset is
malformed its seconds value is NaN, the JS guard `adjustedSeconds >= 0` is
false, and the result is floored to 0 exactly as in the source. -/
def resolveRelativeTime (timeStr : String) (videoDuration : Nat) : String :=
  if timeStr = "start" ∨ timeStr = "beginning" then "00:00:00"
  else if timeStr = "end" then secondsToTime videoDuration
  else if strStartsWithEndDash timeStr then
    match timeToSeconds (strDropEndDash timeStr) with
    | some subtractSeconds =>
      let adjustedSeconds : Int := (videoDuration : Int) - subtractSeconds
      secondsToTime (if 0 ≤ adjustedSeconds then adjustedSeconds.toNat else 0)
    | none => secondsToTime 0
  else timeStr

/-! ## The strict HH:MM:SS pattern
`/^([0-1]?\d|2[0-3]):([0-5]\d):([0-5]\d)$/` used by the cut and
remove-segment handlers (main.js lines 589 and 1095). -/

def hoursOk (cs : List Char) : Bool :=
  match cs with
  | [c] => c.isDigit
  | [c1, c2] => ((c1 == '0' || c1 == '1') && c2.isDigit) || (c1 == '2' && ('0' ≤ c2 ∧ c2 ≤ '3'))
  | _ => false

def minSecOk (cs : List Char) : Bool :=
  match cs with
  | [c1, c2] => ('0' ≤ c1 ∧ c1 ≤ '5') && c2.isDigit
  | _ => false

def timeFormatRegex (s : String) : Bool :=
  match splitOnChar ':' s with
  | [h, m, sec] => hoursOk h.data && minSecOk m.data && minSecOk sec.data
  | _ => false

/-- The strict end-relative pattern `/^end-(\d{2}):(\d{2}):(\d{2})$/` used by
the remove-segment handler (main.js line 1080); returns the offset in
seconds on a match. -/
def twoDigits (cs : List Char) : Bool :=
  match cs with
  | [a, b] => a.isDigit && b.isDigit
  | _ => false

def endExprMatch (s : String) : Option Nat :=
  if strStartsWithEndDash s then
    match splitOnChar ':' (strDropEndDash s) with
    | [a, b, c] =>
      if twoDigits a.data && twoDigits b.data && twoDigits c.data then
        some (digitsValN a.data * 3600 + digitsValN b.data * 60 + digitsValN c.data)
      else none
    | _ => none
  else none

/-! ## Overlay prompt interpreter (main.js lines 198-333)

Each JS regex used by `parseOverlayPrompt` is embedded as a leftmost-match
scanner over the character list: positions are tried left to right, and at
each position the regex alternatives are tried in their written order, which
is exactly the JS matching discipline for these patterns. -/

/-- Leftmost match over positions of a string. -/
def scanPositions (cs : List Char) (f : Nat → Option α) : Option α :=
  (List.range (cs.length + 1)).findSome? f

/-- Leftmost case-insensitive match of a list of literal alternatives
(alternatives tried in order at each position), returning the lower-cased
capture. -/
def matchAltsCI (alts : List String) (s : String) : Option String :=
  let cs := s.data
  scanPositions cs (fun i =>
    alts.findSome? (fun a => if prefixCI a.data (cs.drop i) then some a else none))

def fontSizeAlts : List String := ["extra large", "huge", "big", "large", "medium", "small"]

/-- The `fontSizeMap` table (main.js lines 253-260). -/
def fontSizeMap (k : String) : Nat :=
  if k = "small" then 24
  else if k = "medium" then 36
  else if k = "large" then 48
  else if k = "big" then 48
  else if k = "huge" then 60
  else if k = "extra large" then 80
  else 0

def isQuoteChar (c : Char) : Bool := c == sq || c == '"'

/-- `/['"](.+?)['"]/` — lazy quoted-text capture: at the leftmost opening
quote with a closing quote, the shortest nonempty newline-free body. -/
def quoteMatch (s : String) : Option String :=
  let cs := s.data
  scanPositions cs (fun i =>
    match cs.drop i with
    | c :: rest =>
      if isQuoteChar c then
        (List.range (rest.length + 1)).findSome? (fun k =>
          if 1 ≤ k ∧ isQuoteChar (rest.getD k ' ') ∧ (rest.take k).all (fun x => !(x == '\n')) then
            some (String.mk (rest.take k))
          else none)
      else none
    | [] => none)

def isRawTextChar (c : Char) : Bool :=
  c.isAlpha || c.isDigit || c == '!' || c == '?' || c == ',' || c == '.' || c == sq || c == ' '

/-- `/(?:add|put)\s+([a-zA-Z0-9!?,.' ]+)/i` — after the verb, the greedy
whitespace run backtracks (shortening one space at a time) until the
character class can take at least one character. -/
def rawTextMatch (s : String) : Option String :=
  let cs := s.data
  scanPositions cs (fun i =>
    let tail := cs.drop i
    let verbLen : Option Nat :=
      if prefixCI ['a', 'd', 'd'] tail then some 3
      else if prefixCI ['p', 'u', 't'] tail then some 3
      else none
    match verbLen with
    | none => none
    | some n =>
      let rest := tail.drop n
      let wsMax := (rest.takeWhile isWsChar).length
      if wsMax = 0 then none
      else
        (List.range wsMax).findSome? (fun j =>
          let w := wsMax - j
          let content := (rest.drop w).takeWhile isRawTextChar
          if 1 ≤ content.length then some (String.mk content) else none))

/-- `/(?:at|minute)\s*(\d{1,2}):?(\d{2})?/i` — returns the two captures. -/
def timeMatchP (s : String) : Option (String × Option String) :=
  let cs := s.data
  scanPositions cs (fun i =>
    let tail := cs.drop i
    let verbLen : Option Nat :=
      if prefixCI ['a', 't'] tail then some 2
      else if prefixCI ['m', 'i', 'n', 'u', 't', 'e'] tail then some 6
      else none
    match verbLen with
    | none => none
    | some n =>
      let rest := (tail.drop n).dropWhile isWsChar
      match rest with
      | c1 :: r1 =>
        if c1.isDigit then
          let g1r2 : List Char × List Char :=
            match r1 with
            | c2 :: rr => if c2.isDigit then ([c1, c2], rr) else ([c1], r1)
            | [] => ([c1], [])
          let r3 : List Char :=
            match g1r2.2 with
            | ':' :: rr => rr
            | _ => g1r2.2
          let g2 : Option String :=
            match r3 with
            | a :: b :: _ => if a.isDigit && b.isDigit then some (String.mk [a, b]) else none
            | _ => none
          some (String.mk g1r2.1, g2)
        else none
      | [] => none)

/-- `/at (the end|end of the video)/i.test(prompt)`. -/
def endMatchP (s : String) : Bool :=
  strContainsCI s "at the end" || strContainsCI s "at end of the video"

/-- `/at (the start|start of the video)/i.test(prompt)`. -/
def startMatchP (s : String) : Bool :=
  strContainsCI s "at the start" || strContainsCI s "at start of the video"

/-- `/for (\d+) seconds/` (case-sensitive), returning the parsed count. -/
def durationMatchP (s : String) : Option Nat :=
  let cs := s.data
  scanPositions cs (fun i =>
    let tail := cs.drop i
    if ['f', 'o', 'r', ' '].isPrefixOf tail then
      let rest := tail.drop 4
      let ds := rest.takeWhile Char.isDigit
      if 1 ≤ ds.length ∧ (" seconds".data).isPrefixOf (rest.drop ds.length) then
        some (digitsValN ds)
      else none
    else none)

/-- `/in (\w+)/i`, returning the (original-case) word capture. -/
def colorMatchP (s : String) : Option String :=
  let cs := s.data
  scanPositions cs (fun i =>
    let tail := cs.drop i
    if prefixCI ['i', 'n'] tail then
      match tail.drop 2 with
      | ' ' :: rest =>
        let w := rest.takeWhile isWordChar
        if 1 ≤ w.length then some (String.mk w) else none
      | _ => none
    else none)

def knownColors : List String :=
  ["red", "blue", "green", "white", "black", "yellow", "purple", "orange", "pink", "gray"]

def posAlts : List String :=
  ["top-left", "top-right", "top-center", "bottom-left", "bottom-right", "bottom-center", "center"]

/-- The parsed overlay start time: absolute seconds or the `"END"` sentinel. -/
inductive OverlayStart
  | secs (n : Int)
  | END
  deriving DecidableEq, Repr

/-- The structured overlay command produced by `parseOverlayPrompt`. -/
structure OverlaySpec where
  text : String
  start_time : OverlayStart
  duration : Nat
  color : String
  position : String
  bold : Bool
  fontsize : Nat
  deriving DecidableEq, Repr

/-- `parseOverlayPrompt` (main.js lines 241-333). -/
def parseOverlayPrompt (promptStr : String) : OverlaySpec :=
  let fontsize : Nat :=
    match matchAltsCI fontSizeAlts promptStr with
    | some k => fontSizeMap k
    | none => 64
  let text : String :=
    match quoteMatch promptStr with
    | some q => q
    | none =>
      match rawTextMatch promptStr with
      | some r => r
      | none => "Text"
  let start_time : OverlayStart :=
    match timeMatchP promptStr with
    | some (g1, g2) =>
      let minutes := digitsValN g1.data
      let seconds := match g2 with | some d => digitsValN d.data | none => 0
      .secs ((minutes * 60 + seconds : Nat) : Int)
    | none =>
      if endMatchP promptStr then .END
      else .secs 0
  let duration : Nat :=
    match durationMatchP promptStr with
    | some n => n
    | none => 3
  let color : String :=
    match colorMatchP promptStr with
    | some w =>
      let wl := strLower w
      if knownColors.contains wl then wl else "white"
    | none => "white"
  let position0 : String :=
    match matchAltsCI posAlts promptStr with
    | some p => p
    | none =>
      let p1 := if strContainsCI promptStr "top" then "top-center" else "center"
      let p2 := if strContainsCI promptStr "bottom" then "bottom-center" else p1
      let p3 := if strContainsCI promptStr "left" then "top-left" else p2
      if strContainsCI promptStr "right" then "top-right" else p3
  let bold : Bool := strContainsCI promptStr "bold"
  let position : String :=
    if position0 = "right" then "top-right"
    else if position0 = "left" then "top-left"
    else if position0 = "bottom" then "bottom-center"
    else if position0 = "top" then "top-center"
    else position0
  { text, start_time, duration, color, position, bold, fontsize }

/-- `getPositionXY` (main.js lines 198-214), with the numeric margins
rendered the way the template literal renders them. -/
def getPositionXY (position : String) : String × String :=
  if position = "top-left" then ("20", "20")
  else if position = "top-center" then ("(main_w-text_w)/2", "20")
  else if position = "top-right" then ("main_w-text_w-20", "20")
  else if position = "bottom-left" then ("20", "main_h-text_h-20")
  else if position = "bottom-center" then ("(main_w-text_w)/2", "main_h-text_h-20")
  else if position = "bottom-right" then ("main_w-text_w-20", "main_h-text_h-20")
  else ("(main_w-text_w)/2", "(main_h-text_h)/2")

def overlayStartStr : OverlayStart → String
  | .secs n => toString n
  | .END => "END"

def sqStr : String := String.mk [sq]

/-- `generateDrawtextCommand` (main.js lines 219-232). -/
def generateDrawtextCommand (data : OverlaySpec) : String :=
  let xy := getPositionXY data.position
  let endStr : String :=
    match data.start_time with
    | .END => "END"
    | .secs n => toString (n + (data.duration : Int))
  let fontsize : Nat := if data.fontsize = 0 then 36 else data.fontsize
  let fontFile : String :=
    if data.bold then ":fontfile=/System/Library/Fonts/Supplemental/Arial Bold.ttf" else ""
  "drawtext=text=" ++ sqStr ++ data.text ++ sqStr ++ ":x=" ++ xy.1 ++ ":y=" ++ xy.2 ++
    ":fontsize=" ++ toString fontsize ++ ":fontcolor=" ++ data.color ++ fontFile ++
    ":enable=" ++ sqStr ++ "between(t," ++ overlayStartStr data.start_time ++ "," ++ endStr ++ ")" ++ sqStr

/-! ## Filesystem/process effect model -/

/-- One observable filesystem or process effect of a handler run.
`stat p` is an `fs.existsSync` probe, `ffmpeg p` a successful transcoder
invocation that wrote `p`, `writeFile p` an `fs.writeFileSync`, and
`deleteFile p` an `fs.unlink`/`fs.unlinkSync`. A failing transcoder
invocation is modelled as writing nothing. -/
inductive FsEff
  | stat (p : String)
  | ffmpeg (p : String)
  | writeFile (p : String)
  | deleteFile (p : String)
  deriving DecidableEq, Repr

/-- The HTTP response of a handler, abstracted to status class and message.
`refError` models the uncaught `ReferenceError` raised by the cut handler
when it evaluates the undeclared `outputFilePath` variable. -/
inductive Resp
  | ok (url : String)
  | okActions (actions : List String)
  | badRequest (msg : String)
  | notFound (msg : String)
  | serverError (msg : String)
  | refError (msg : String)
  deriving DecidableEq, Repr

def Resp.isOk : Resp → Bool
  | .ok _ => true
  | .okActions _ => true
  | _ => false

/-- External-world outcomes a handler run depends on: which paths exist,
whether the duration probe succeeds and what it reports (whole seconds),
whether the transcription service succeeds, and the exit status of the
`k`-th transcoder invocation of the run. -/
structure Oracle where
  fsFiles : List String
  probeOk : Bool
  duration : Nat
  transcribeOk : Bool
  stageOk : Nat → Bool

def uploadDir : String := "uploads/videos"
def cutsDir : String := "uploads/cuts"
def audioDir : String := "uploads/audio"
def subtitlesDir : String := "uploads/subtitles"
def downloadsDir : String := "downloads"

/-- `path.join` restricted to joining a directory and a leaf name. `..`
segments are not normalized by the model; no theorem depends on the
resolved shape of a traversal path, only on whether it was resolved at
all. -/
def pathJoin (d f : String) : String := d ++ "/" ++ f

/-- `getVideoPath` (main.js lines 158-171): probe the uploads directory and
then the cuts directory, returning the first hit and the probes made. -/
def getVideoPath (o : Oracle) (filename : String) : Option String × List FsEff :=
  let p1 := pathJoin uploadDir filename
  let p2 := pathJoin cutsDir filename
  if o.fsFiles.contains p1 then (some p1, [.stat p1])
  else if o.fsFiles.contains p2 then (some p2, [.stat p1, .stat p2])
  else (none, [.stat p1, .stat p2])

/-- The filename sanitization used by the cut, add-overlay, add-subtitles
and remove-segment handlers:
`filename.includes('..') || filename.includes('/') || filename.includes('\\')`. -/
def filenameUnsafe (f : String) : Bool :=
  listContains f.data ['.', '.'] || f.data.contains '/' || f.data.contains '\\'

/-- Run a list of transcoder stages in order, numbering invocations from
`k`. Stops at the first failure (the awaited promise rejects). Returns
whether all stages succeeded, the next invocation number, and the trace. -/
def runStages (o : Oracle) : Nat → List String → Bool × Nat × List FsEff
  | k, [] => (true, k, [])
  | k, p :: rest =>
    if o.stageOk k then
      let r := runStages o (k + 1) rest
      (r.1, r.2.1, FsEff.ffmpeg p :: r.2.2)
    else (false, k + 1, [])

/-- `path.extname` on a POSIX path. -/
def extname (filename : String) : String :=
  let base := ((splitOnChar '/' filename).getLastD "")
  let cs := base.data
  match cs.reverse.findIdx? (fun c => c == '.') with
  | none => ""
  | some j =>
    let i := cs.length - 1 - j
    if i = 0 then "" else String.mk (cs.drop i)

/-- `newName.replace(/\s+/g, '_')`: each maximal whitespace run becomes a
single underscore. The boolean tracks whether the previous character was
part of a whitespace run already replaced. -/
def replWsAux : Bool → List Char → List Char
  | _, [] => []
  | inWs, c :: rest =>
    if isWsChar c then
      if inWs then replWsAux true rest else '_' :: replWsAux true rest
    else c :: replWsAux false rest

def jsReplaceSpaces (s : String) : String := String.mk (replWsAux false s.data)

/-! ## Route handlers (main.js)

Each handler is embedded as a function of the request fields, the oracle,
and the timestamp-plus-random unique suffix (`uid`) the run would draw,
returning the response and the ordered effect trace. -/

/-- The fixed supported-action set of `/api/parse-prompt`
(main.js lines 523-527). -/
def supportedActions : List String :=
  ["cut", "trim", "add_subtitles", "export", "remove_segment", "undo", "add_overlay",
   "extract_audio", "slow_motion"]

def firstUnsupported (actions : List String) : Option String :=
  actions.find? (fun a => !(supportedActions.contains a))

/-- The validation phase of `POST /api/parse-prompt` (main.js lines 529-538),
applied to the action tags returned by the external classifier. The route
performs no filesystem operation. -/
def parsePromptHandler (gptActions : List String) : Resp × List FsEff :=
  match firstUnsupported gptActions with
  | some t =>
    (.badRequest ("The requested action \x27" ++ t ++ "\x27 is not currently supported."), [])
  | none => (.okActions gptActions, [])

/-- The `adjustedEnd` clamp of `POST /api/cut-video` (main.js lines 601-604). -/
def cutAdjustedEnd (resolvedEnd : String) (videoDuration : Nat) : String :=
  if jsGTNat (timeToSeconds resolvedEnd) videoDuration then secondsToTime videoDuration
  else resolvedEnd

/-- `POST /api/cut-video` (main.js lines 555-638). After all validation
passes, the handler evaluates the spawn arguments, which reference the
undeclared `outputFilePath` variable, raising a `ReferenceError` before any
transcoder process is spawned. -/
def cutVideoHandler (o : Oracle) (filename startT endT : String) : Resp × List FsEff :=
  if filename = "" ∨ startT = "" ∨ endT = "" then
    (.badRequest "Missing required fields: filename, start, and end.", [])
  else if filenameUnsafe filename then (.badRequest "Invalid filename.", [])
  else
    let gv := getVideoPath o filename
    match gv.1 with
    | none => (.notFound "Video file not found.", gv.2)
    | some _ =>
      if !o.probeOk then (.serverError "Failed to analyze video duration.", gv.2)
      else
        let videoDuration := o.duration
        let resolvedStart := resolveRelativeTime startT videoDuration
        let resolvedEnd := resolveRelativeTime endT videoDuration
        if !(timeFormatRegex resolvedStart && timeFormatRegex resolvedEnd) then
          (.badRequest "Invalid time format. Use HH:MM:SS.", gv.2)
        else
          let startSeconds := timeToSeconds resolvedStart
          let endSeconds := timeToSeconds resolvedEnd
          if jsLE endSeconds startSeconds then
            (.badRequest "End time must be after start time.", gv.2)
          else
            (.refError "outputFilePath is not defined", gv.2)

/-- `POST /api/add-overlay` (main.js lines 662-727). On transcoder success,
the handler deletes the input file (`fs.unlink(inputFilePath)`). -/
def addOverlayHandler (o : Oracle) (promptStr filename uid : String) : Resp × List FsEff :=
  if promptStr = "" ∨ filename = "" ∨ filenameUnsafe filename then
    (.badRequest "Invalid prompt or filename.", [])
  else
    let gv := getVideoPath o filename
    match gv.1 with
    | none => (.notFound "Video file not found.", gv.2)
    | some inputPath =>
      let overlayData := parseOverlayPrompt promptStr
      let resolved : Option OverlaySpec :=
        match overlayData.start_time with
        | .END =>
          if o.probeOk then
            some { overlayData with
                   start_time := .secs ((o.duration : Int) - (overlayData.duration : Int)) }
          else none
        | .secs _ => some overlayData
      match resolved with
      | none => (.serverError "Failed to get video duration.", gv.2)
      | some data =>
        let _draw := generateDrawtextCommand data
        let outputFilename := "overlay-" ++ uid ++ extname filename
        let outputFilePath := pathJoin cutsDir outputFilename
        if o.stageOk 0 then
          (.ok ("/uploads/cuts/" ++ outputFilename),
           gv.2 ++ [.ffmpeg outputFilePath, .deleteFile inputPath])
        else (.serverError "Overlay failed.", gv.2)

/-- The local `normalizeTime` helper of `POST /api/slow-motion`
(main.js lines 761-769). Unlike `resolveRelativeTime` it does not handle
`"beginning"`, and a malformed `end-` offset makes
`Math.max(0, fullDur - NaN)` NaN, which `secondsToTime` renders as
`"NaN:NaN:NaN"`. -/
def normalizeTimeSM (fullDur : Nat) (t : String) : String :=
  if t = "start" then "00:00:00"
  else if t = "end" then secondsToTime fullDur
  else if strStartsWithEndDash t then
    match timeToSeconds (strDropEndDash t) with
    | some sub => secondsToTime (max 0 ((fullDur : Int) - sub)).toNat
    | none => "NaN:NaN:NaN"
  else t

/-- Head-stage path selection of `POST /api/slow-motion` (main.js line 792):
present exactly when the raw start expression is not the literal `"start"`. -/
def slowMoPartA (startT uid ext : String) : Option String :=
  if startT = "start" then none else some (cutsDir ++ "/pre-" ++ uid ++ ext)

/-- Tail-stage path selection of `POST /api/slow-motion` (main.js line 794):
present exactly when the raw end expression is not the literal `"end"`. -/
def slowMoPartC (endT uid ext : String) : Option String :=
  if endT = "end" then none else some (cutsDir ++ "/post-" ++ uid ++ ext)

/-- `POST /api/slow-motion` (main.js lines 737-886). On full success the
handler deletes the stage outputs, the concat list, and the input file; on
any failure it returns 500 without cleanup. -/
def slowMotionHandler (o : Oracle) (filename startT endT speed uid : String) :
    Resp × List FsEff :=
  if filename = "" ∨ startT = "" ∨ endT = "" ∨ speed = "" then
    (.badRequest "Missing filename, start, end or speed.", [])
  else
    let gv := getVideoPath o filename
    match gv.1 with
    | none => (.notFound "Video not found.", gv.2)
    | some inputPath =>
      if !o.probeOk then (.serverError "Could not probe duration.", gv.2)
      else
        let fullDur := o.duration
        let sSec := timeToSeconds (normalizeTimeSM fullDur startT)
        let eSec := timeToSeconds (normalizeTimeSM fullDur endT)
        if jsGE sSec eSec || jsGTNat eSec fullDur then
          (.badRequest "Invalid time range.", gv.2)
        else
          let spOk : Bool :=
            match jsParseFloat speed with
            | none => false
            | some nd => decide (0 < nd.1) && decide (nd.1 ≤ 5 * 10 ^ nd.2)
          if !spOk then (.badRequest "Speed must be between 0.1 and 5.", gv.2)
          else
            let ext := extname filename
            let partB := cutsDir ++ "/slow-" ++ uid ++ ext
            let listTxt := cutsDir ++ "/list-" ++ uid ++ ".txt"
            let cmds := (slowMoPartA startT uid ext).toList ++ [partB] ++
              (slowMoPartC endT uid ext).toList
            let r := runStages o 0 cmds
            if !r.1 then (.serverError "Processing failed.", gv.2 ++ r.2.2)
            else
              let tr2 := r.2.2 ++ [.writeFile listTxt]
              if !o.stageOk r.2.1 then (.serverError "Processing failed.", gv.2 ++ tr2)
              else
                let outName := "slowmo-" ++ uid ++ ext
                (.ok ("/uploads/cuts/" ++ outName),
                 gv.2 ++ tr2 ++ [.ffmpeg (cutsDir ++ "/" ++ outName)] ++
                   cmds.map FsEff.deleteFile ++ [.deleteFile listTxt, .deleteFile inputPath])

/-- `POST /api/extract-audio` (main.js lines 893-957). The raw filename is
joined under the uploads directory and probed with no sanitization. -/
def extractAudioHandler (o : Oracle) (filename format uid : String) : Resp × List FsEff :=
  if filename = "" then (.badRequest "Missing filename", [])
  else
    let inputPath := pathJoin uploadDir filename
    if !(o.fsFiles.contains inputPath) then
      (.notFound "Video file not found.", [.stat inputPath])
    else
      let fmtChoice : Option String :=
        if format ≠ "" ∧ strLower format = "wav" then some "wav"
        else if format ≠ "" ∧ strLower format ≠ "mp3" then none
        else some "mp3"
      match fmtChoice with
      | none => (.badRequest "Unsupported format", [.stat inputPath])
      | some outputFormat =>
        let outputName := "audio-" ++ uid ++ "." ++ outputFormat
        if o.stageOk 0 then
          (.ok ("/downloads/" ++ outputName),
           [.stat inputPath, .ffmpeg (pathJoin downloadsDir outputName)])
        else (.serverError "Audio extraction failed", [.stat inputPath])

/-- `POST /api/add-subtitles` (main.js lines 966-1052). On full success the
intermediate audio and subtitle files and the input file are deleted. -/
def addSubtitlesHandler (o : Oracle) (filename uid : String) : Resp × List FsEff :=
  if filename = "" ∨ filenameUnsafe filename then (.badRequest "Invalid filename", [])
  else
    let gv := getVideoPath o filename
    match gv.1 with
    | none => (.notFound "Video file not found.", gv.2)
    | some inputPath =>
      let tr0 := gv.2 ++ [.stat inputPath]
      let audioFilePath := pathJoin audioDir (uid ++ ".mp3")
      let srtFilePath := pathJoin subtitlesDir ("subtitles-" ++ uid ++ ".srt")
      let outputFilename := "subtitled-" ++ uid ++ extname filename
      if !o.stageOk 0 then (.serverError "Subtitle generation failed.", tr0)
      else
        let tr1 := tr0 ++ [.ffmpeg audioFilePath]
        if !o.transcribeOk then (.serverError "Subtitle generation failed.", tr1)
        else
          let tr2 := tr1 ++ [.writeFile srtFilePath]
          if !o.stageOk 1 then (.serverError "Subtitle generation failed.", tr2)
          else
            (.ok ("/uploads/cuts/" ++ outputFilename),
             tr2 ++ [.ffmpeg (pathJoin cutsDir outputFilename),
                     .stat audioFilePath, .deleteFile audioFilePath,
                     .stat srtFilePath, .deleteFile srtFilePath,
                     .deleteFile inputPath])

/-- The start-expression normalization of `POST /api/remove-segment`
(main.js lines 1073 and 1083-1087). -/
def removeSegParsedStart (durationSec : Nat) (startT : String) : String :=
  let p0 := if startT = "start" ∨ startT = "beginning" then "00:00:00" else startT
  match endExprMatch p0 with
  | some off => secondsToTime (durationSec - off)
  | none => p0

/-- The end-expression normalization of `POST /api/remove-segment`
(main.js lines 1082 and 1088-1092). -/
def removeSegParsedEnd (durationSec : Nat) (endT : String) : String :=
  let p0 := if endT = "end" then secondsToTime durationSec else endT
  match endExprMatch p0 with
  | some off => secondsToTime (durationSec - off)
  | none => p0

/-- Head-stage path selection of `POST /api/remove-segment`
(main.js line 1110): present exactly when the resolved start is positive. -/
def removeSegPartA (startSec : Option Int) (uid ext : String) : Option String :=
  if jsGT startSec (some 0) then some (cutsDir ++ "/keepA-" ++ uid ++ ext) else none

/-- Tail-stage path selection of `POST /api/remove-segment`
(main.js line 1111): present exactly when the resolved end string differs
from the formatted full duration. -/
def removeSegPartB (parsedEnd endOfVideo uid ext : String) : Option String :=
  if parsedEnd ≠ endOfVideo then some (cutsDir ++ "/keepB-" ++ uid ++ ext) else none

/-- `POST /api/remove-segment` (main.js lines 1055-1200). Keeps up to two
lossless copy stages (head and tail), concatenates the survivors, and on
success deletes the stage outputs, the list file, and the input file; on a
stage failure the catch block returns 500 without cleanup. -/
def removeSegmentHandler (o : Oracle) (filename startT endT uid : String) :
    Resp × List FsEff :=
  if filename = "" ∨ startT = "" ∨ endT = "" then
    (.badRequest "Missing required fields: filename, start, and end.", [])
  else if filenameUnsafe filename then (.badRequest "Invalid filename.", [])
  else
    let gv := getVideoPath o filename
    match gv.1 with
    | none => (.notFound "Video file not found.", gv.2)
    | some inputPath =>
      let tr0 := gv.2 ++ [.stat inputPath]
      if !o.probeOk then (.serverError "Internal error during segment removal.", tr0)
      else
        let durationSec := o.duration
        let endOfVideo := secondsToTime durationSec
        let parsedStart := removeSegParsedStart durationSec startT
        let parsedEnd := removeSegParsedEnd durationSec endT
        if !(timeFormatRegex parsedStart && timeFormatRegex parsedEnd) then
          (.badRequest "Invalid time format. Use HH:MM:SS or end-relative format.", tr0)
        else
          let startSec := timeToSeconds parsedStart
          let endSec := timeToSeconds parsedEnd
          if jsLE endSec startSec then
            (.badRequest "End time must be after start time.", tr0)
          else
            let ext := extname filename
            let listFile := cutsDir ++ "/list-" ++ uid ++ ".txt"
            let finalName := "removed-" ++ uid ++ ext
            let stages := (removeSegPartA startSec uid ext).toList ++
              (removeSegPartB parsedEnd endOfVideo uid ext).toList
            let r := runStages o 0 stages
            if !r.1 then (.serverError "Internal error during segment removal.", tr0 ++ r.2.2)
            else if stages.isEmpty then
              (.badRequest "Nothing left to keep. Aborting.", tr0 ++ r.2.2)
            else
              let tr2 := r.2.2 ++ [.writeFile listFile]
              if !o.stageOk r.2.1 then
                (.serverError "Internal error during segment removal.", tr0 ++ tr2)
              else
                (.ok ("/uploads/cuts/" ++ finalName),
                 tr0 ++ tr2 ++ [.ffmpeg (cutsDir ++ "/" ++ finalName)] ++
                   stages.map FsEff.deleteFile ++ [.deleteFile listFile, .deleteFile inputPath])

/-- `POST /api/export` (main.js lines 1204-1291). Writes a re-encoded copy
under the cuts directory; the deletion of the original is commented out in
the source, so no path of this handler deletes anything. -/
def exportHandler (o : Oracle) (filename targetFormat newName uid : String) :
    Resp × List FsEff :=
  let gv := getVideoPath o filename
  match gv.1 with
  | none => (.notFound "Video file not found.", gv.2)
  | some _ =>
    let baseName := if newName ≠ "" then jsReplaceSpaces newName else "exported-" ++ uid
    let allowedFormats := ["mp4", "mov", "avi", "webm", "mkv"]
    let extension := if targetFormat ≠ "" ∧ allowedFormats.contains targetFormat
      then targetFormat else "mp4"
    let outputFilename := baseName ++ "." ++ extension
    if o.stageOk 0 then
      (.ok ("/uploads/cuts/" ++ outputFilename), gv.2 ++ [.ffmpeg (pathJoin cutsDir outputFilename)])
    else (.serverError "Export failed.", gv.2)

/-! ## Trace predicates and concrete scenarios -/

/-- No `deleteFile` event occurs in the trace. -/
def noDeletes (tr : List FsEff) : Bool :=
  tr.all (fun e => match e with | .deleteFile _ => false | _ => true)

/-- The trace consists of existence probes only: nothing was written,
transcoded, or deleted. -/
def onlyStats (tr : List FsEff) : Bool :=
  tr.all (fun e => match e with | .stat _ => true | _ => false)

/-- Modelled from the spec: the `EditAction` tag catalog of §3
({Cut, RemoveSegment, AddOverlay, ExtractAudio, SlowMotion, AddSubtitles,
Export, Undo, Redo}); the source represents actions only as raw tags. -/
def editActionCatalog : List String :=
  ["cut", "remove_segment", "add_overlay", "extract_audio", "slow_motion",
   "add_subtitles", "export", "undo", "redo"]

/-- A world where `clip.mp4` is uploaded, its duration probes as 10 s, and
every external call succeeds. -/
def oAllOk : Oracle :=
  { fsFiles := [pathJoin uploadDir "clip.mp4"], probeOk := true, duration := 10,
    transcribeOk := true, stageOk := fun _ => true }

/-- A world with an empty filesystem. -/
def oEmptyFs : Oracle :=
  { fsFiles := [], probeOk := true, duration := 0, transcribeOk := true,
    stageOk := fun _ => true }

/-- A world where only the first transcoder invocation of a run succeeds and
every later one (in particular the final concatenation) fails. -/
def oConcatFail : Oracle :=
  { fsFiles := [pathJoin uploadDir "clip.mp4"], probeOk := true, duration := 10,
    transcribeOk := true, stageOk := fun k => k == 0 }

/-! ## Helper lemmas -/

theorem noDeletes_append (a b : List FsEff) :
    noDeletes (a ++ b) = (noDeletes a && noDeletes b) := by
  simp [noDeletes, List.all_append]

theorem noDeletes_getVideoPath (o : Oracle) (f : String) :
    noDeletes (getVideoPath o f).2 = true := by
  simp only [getVideoPath]
  split
  · rfl
  · split <;> rfl

theorem onlyStats_getVideoPath (o : Oracle) (f : String) :
    onlyStats (getVideoPath o f).2 = true := by
  simp only [getVideoPath]
  split
  · rfl
  · split <;> rfl

theorem head_getVideoPath (o : Oracle) (f : String) :
    (getVideoPath o f).2.head? = some (.stat (pathJoin uploadDir f)) := by
  simp only [getVideoPath]
  split
  · rfl
  · split <;> rfl

theorem runStages_all_ok (o : Oracle) (h : ∀ k, o.stageOk k = true) :
    ∀ ps k, (runStages o k ps).1 = true := by
  intro ps
  induction ps with
  | nil => intro k; rfl
  | cons p rest ih =>
    intro k
    simp only [runStages, h k, if_true]
    exact ih (k + 1)

theorem runStages_ffmpeg_mem (o : Oracle) (p : String) :
    ∀ ps k, FsEff.ffmpeg p ∈ (runStages o k ps).2.2 → p ∈ ps := by
  intro ps
  induction ps with
  | nil => intro k h; simp [runStages] at h
  | cons q rest ih =>
    intro k h
    simp only [runStages] at h
    split at h
    · rcases List.mem_cons.mp h with h1 | h2
      · exact List.mem_cons.mpr (Or.inl (by injection h1))
      · exact List.mem_cons.mpr (Or.inr (ih (k + 1) h2))
    · simp at h

theorem runStages_noDeletes (o : Oracle) :
    ∀ ps k, noDeletes (runStages o k ps).2.2 = true := by
  intro ps
  induction ps with
  | nil => intro k; rfl
  | cons q rest ih =>
    intro k
    simp only [runStages]
    split
    · simpa [noDeletes] using ih (k + 1)
    · rfl

/-! ## Claim C9 -/

/-- C9 (confirmed): interpreting
`"Add 'Subscribe Now' at the end in red top-right bold text"` with the
overlay prompt interpreter yields text `"Subscribe Now"`, the `END` start
sentinel, color `"red"`, position `"top-right"`, bold `true` (and the
default 3 s duration and 64 px font size). -/
theorem spec_c9_theorem :
    parseOverlayPrompt "Add \x27Subscribe Now\x27 at the end in red top-right bold text" =
      { text := "Subscribe Now", start_time := .END, duration := 3, color := "red",
        position := "top-right", bold := true, fontsize := 64 } := by
  decide

/-! ## Claim C10 -/

/-- C10 (code_bug): the catalog tag `redo` is absent from the validator's
`supportedActions` set, so the batch `[undo, redo]`, which consists only of
catalog actions, is rejected as unsupported — even though the handler's own
classifier instructions direct it to emit `{"action": "redo"}`. -/
theorem spec_c10_theorem :
    "redo" ∈ editActionCatalog ∧
    supportedActions.contains "redo" = false ∧
    parsePromptHandler ["undo", "redo"] =
      (.badRequest "The requested action \x27redo\x27 is not currently supported.", []) := by
  decide

/-! ## Claim C8 -/

/-- C8 (code_bug): a slow-motion run over `[start, end]` of `clip.mp4`
whose final concatenation invocation fails returns a 500 response while its
middle stage output `slow-u8.mp4` and the concat manifest `list-u8.txt`
have been created and nothing has been deleted — the failure path performs
no cleanup, contradicting the claimed deterministic cleanup on every exit
path. -/
theorem spec_c8_theorem :
    (slowMotionHandler oConcatFail "clip.mp4" "start" "end" "0.5" "u8").1 =
      .serverError "Processing failed." ∧
    FsEff.ffmpeg "uploads/cuts/slow-u8.mp4" ∈
      (slowMotionHandler oConcatFail "clip.mp4" "start" "end" "0.5" "u8").2 ∧
    FsEff.writeFile "uploads/cuts/list-u8.txt" ∈
      (slowMotionHandler oConcatFail "clip.mp4" "start" "end" "0.5" "u8").2 ∧
    noDeletes (slowMotionHandler oConcatFail "clip.mp4" "start" "end" "0.5" "u8").2 = true := by
  decide

/-! ## Claim C1: counterexample -/

/-- C1 is false as stated: a successful slow-motion run over
`[00:00:02, 00:00:04]` of the uploaded asset `clip.mp4` answers 200 but its
trace deletes the original source file `uploads/videos/clip.mp4`
(`fs.unlinkSync(inputPath)`, main.js line 846), so the input asset is not
left present on disk. -/
theorem spec_c1_counterexample :
    ((slowMotionHandler oAllOk "clip.mp4" "00:00:02" "00:00:04" "0.5" "u1").1).isOk = true ∧
    FsEff.deleteFile (pathJoin uploadDir "clip.mp4") ∈
      (slowMotionHandler oAllOk "clip.mp4" "00:00:02" "00:00:04" "0.5" "u1").2 := by
  decide

/-! ## Claim C2: counterexample -/

/-- C2 is false as stated: the extract-audio operation accepts the
traversal filename `../../etc/passwd`, resolves it under the uploads
directory, and probes the resulting path — answering 404, not a validation
error; no sanitization runs before path resolution
(main.js lines 893-903). -/
theorem spec_c2_counterexample :
    extractAudioHandler oEmptyFs "../../etc/passwd" "" "u3" =
      (.notFound "Video file not found.",
       [.stat (pathJoin uploadDir "../../etc/passwd")]) := by
  decide

/-! ## Claim C5: counterexample -/

/-- C5 is false as stated: the input `end-abc` neither is of the form
`end-HH:MM:SS` nor matches the strict `HH:MM:SS` pattern, yet a cut request
using it as start is not rejected with the invalid-time-format error: the
NaN offset makes `resolveRelativeTime` return `00:00:00`, which passes the
format check, and the handler proceeds past validation (to its unrelated
`ReferenceError` crash on the undeclared output path). -/
theorem spec_c5_counterexample :
    timeFormatRegex "end-abc" = false ∧
    resolveRelativeTime "end-abc" 10 = "00:00:00" ∧
    (cutVideoHandler oAllOk "clip.mp4" "end-abc" "00:00:05").1 =
      .refError "outputFilePath is not defined" := by
  decide

/-! ## Claim C6: counterexample -/

/-- C6 is false as stated: a slow-motion request over `clip.mp4` (probed
duration 10 s) with resolved end `00:00:20` beyond the duration is rejected
with `Invalid time range.` (main.js line 776) instead of being silently
clamped to the duration. -/
theorem spec_c6_counterexample :
    (slowMotionHandler oAllOk "clip.mp4" "00:00:02" "00:00:20" "0.5" "u1w").1 =
      .badRequest "Invalid time range." := by
  decide

/-! ## Claim C7: counterexample -/

/-- C7 is false as stated: in a slow-motion run with start expression
`00:00:00` the resolved window start is 0, yet the head copy stage
`pre-u7.mp4` is built and executed, because the source tests the literal
string `start === 'start'` (main.js line 792) rather than `s > 0`. -/
theorem spec_c7_counterexample :
    timeToSeconds (normalizeTimeSM 10 "00:00:00") = some 0 ∧
    FsEff.ffmpeg "uploads/cuts/pre-u7.mp4" ∈
      (slowMotionHandler oAllOk "clip.mp4" "00:00:00" "00:00:04" "0.5" "u7").2 := by
  decide

/-! ## Claim C3 -/

/-- C3 (confirmed): whenever any member of a submitted batch carries a tag
outside the fixed supported-action set, the whole batch is answered with the
unsupported-action error naming an offending tag — regardless of how many
earlier members are valid — and the parse-prompt route performs no
filesystem effect at all, so validation completes before any execution. -/
theorem spec_c3_theorem (acts : List String)
    (h : ∃ t, t ∈ acts ∧ supportedActions.contains t = false) :
    ∃ t, t ∈ acts ∧ supportedActions.contains t = false ∧
      parsePromptHandler acts =
        (.badRequest ("The requested action \x27" ++ t ++ "\x27 is not currently supported."),
         []) := by
  rcases h with ⟨t0, ht0, hns⟩
  unfold parsePromptHandler firstUnsupported
  rcases hfu : acts.find? (fun a => !(supportedActions.contains a)) with _ | t
  · exfalso
    have hmem := List.find?_eq_none.mp hfu t0 ht0
    simp only [Bool.not_eq_true', Bool.not_eq_false] at hmem
    rw [hns] at hmem
    exact Bool.false_ne_true hmem
  · refine ⟨t, List.mem_of_find?_eq_some hfu, ?_, rfl⟩
    have := List.find?_some hfu
    simpa using this

/-- Witness for C3 at the concrete batch `[cut, make_gif]`: the valid first
member does not save the batch. -/
theorem spec_c3_witness :
    ∃ t, t ∈ ["cut", "make_gif"] ∧ supportedActions.contains t = false ∧
      parsePromptHandler ["cut", "make_gif"] =
        (.badRequest ("The requested action \x27" ++ t ++ "\x27 is not currently supported."),
         []) :=
  spec_c3_theorem ["cut", "make_gif"] ⟨"make_gif", by decide, by decide⟩

/-! ## Claim C4 -/

/-- C4 (confirmed): a remove-segment request that passes validation and
whose resolved window is the whole asset — resolved start parsing to 0
(so no head stage) and resolved end equal to the formatted probed duration
(so no tail stage) — is answered with the empty-result error
`Nothing left to keep. Aborting.`, and its trace contains only existence
probes: no stage file, manifest, or artifact is ever created. -/
theorem spec_c4_theorem (o : Oracle) (f s e uid : String)
    (hf : f ≠ "") (hs : s ≠ "") (he : e ≠ "")
    (hsafe : filenameUnsafe f = false)
    (ip : String) (hip : (getVideoPath o f).1 = some ip)
    (hprobe : o.probeOk = true)
    (hregs : timeFormatRegex (removeSegParsedStart o.duration s) = true)
    (hrege : timeFormatRegex (removeSegParsedEnd o.duration e) = true)
    (hlt : jsLE (timeToSeconds (removeSegParsedEnd o.duration e))
      (timeToSeconds (removeSegParsedStart o.duration s)) = false)
    (hstart : timeToSeconds (removeSegParsedStart o.duration s) = some 0)
    (hend : removeSegParsedEnd o.duration e = secondsToTime o.duration) :
    (removeSegmentHandler o f s e uid).1 = .badRequest "Nothing left to keep. Aborting." ∧
    onlyStats (removeSegmentHandler o f s e uid).2 = true := by
  have hA : removeSegPartA (timeToSeconds (removeSegParsedStart o.duration s)) uid (extname f)
      = none := by
    rw [hstart]; rfl
  have hB : removeSegPartB (removeSegParsedEnd o.duration e) (secondsToTime o.duration) uid
      (extname f) = none := by
    rw [hend]; simp [removeSegPartB]
  simp only [removeSegmentHandler, hip]
  simp only [hf, hs, he, hsafe, hprobe, hregs, hrege, hlt, hA, hB]
  simp [runStages, onlyStats, List.all_append]
  have := onlyStats_getVideoPath o f
  simpa [onlyStats] using this

/-- Witness for C4: removing `[start, end]` from the 10-second `clip.mp4`
is refused with the empty-result error and touches no file. -/
theorem spec_c4_witness :
    (removeSegmentHandler oAllOk "clip.mp4" "start" "end" "u2").1 =
      .badRequest "Nothing left to keep. Aborting." ∧
    onlyStats (removeSegmentHandler oAllOk "clip.mp4" "start" "end" "u2").2 = true :=
  spec_c4_theorem oAllOk "clip.mp4" "start" "end" "u2" (by decide) (by decide) (by decide)
    (by decide) (pathJoin uploadDir "clip.mp4") (by decide) (by decide) (by decide) (by decide)
    (by decide) (by decide) (by decide)

/-! ## Claim C5 -/

/-- C5 (corrected): `resolveRelativeTime` maps `start`/`beginning` to
`00:00:00`, `end` to `secondsToTime(duration)`, and a well-formed
`end-HH:MM:SS` to `secondsToTime(duration - offset)` floored at zero (in
particular `end-00:00:10` against duration 5 gives `00:00:00`); however a
string starting with `end-` whose offset is malformed also resolves to
`00:00:00` (the NaN offset fails the `>= 0` guard) instead of failing, and
only strings of none of the keyword forms pass through unchanged and are
rejected by the cut handler exactly when they fail the strict `HH:MM:SS`
pattern. -/
theorem spec_c5_theorem :
    (∀ D, resolveRelativeTime "start" D = "00:00:00" ∧
      resolveRelativeTime "beginning" D = "00:00:00") ∧
    (∀ D, resolveRelativeTime "end" D = secondsToTime D) ∧
    (∀ t D k, strStartsWithEndDash t = true → timeToSeconds (strDropEndDash t) = some k →
      resolveRelativeTime t D =
        secondsToTime (if 0 ≤ (D : Int) - k then ((D : Int) - k).toNat else 0)) ∧
    (resolveRelativeTime "end-00:00:10" 5 = "00:00:00") ∧
    (∀ t D, strStartsWithEndDash t = true → timeToSeconds (strDropEndDash t) = none →
      resolveRelativeTime t D = "00:00:00") ∧
    (∀ t D, t ≠ "start" → t ≠ "beginning" → t ≠ "end" → strStartsWithEndDash t = false →
      resolveRelativeTime t D = t) ∧
    (∀ o f s e ip, f ≠ "" → s ≠ "" → e ≠ "" → filenameUnsafe f = false →
      (getVideoPath o f).1 = some ip → o.probeOk = true →
      (timeFormatRegex (resolveRelativeTime s o.duration) &&
        timeFormatRegex (resolveRelativeTime e o.duration)) = false →
      (cutVideoHandler o f s e).1 = .badRequest "Invalid time format. Use HH:MM:SS.") := by
  refine ⟨fun D => ⟨rfl, rfl⟩, fun D => rfl, ?_, by decide, ?_, ?_, ?_⟩
  · intro t D k hpre hk
    have h1 : ¬(t = "start" ∨ t = "beginning") := by
      rintro (rfl | rfl) <;> exact absurd hpre (by decide)
    have h2 : ¬(t = "end") := by rintro rfl; exact absurd hpre (by decide)
    simp only [resolveRelativeTime, h1, h2, hpre, hk, if_false, if_true]
  · intro t D hpre hk
    have h1 : ¬(t = "start" ∨ t = "beginning") := by
      rintro (rfl | rfl) <;> exact absurd hpre (by decide)
    have h2 : ¬(t = "end") := by rintro rfl; exact absurd hpre (by decide)
    simp only [resolveRelativeTime, h1, h2, hpre, hk, if_false, if_true]
    decide
  · intro t D h1 h2 h3 h4
    simp only [resolveRelativeTime, h4]
    simp [h1, h2, h3]
  · intro o f s e ip hf hs he hsafe hip hprobe hbad
    simp only [cutVideoHandler, hip]
    simp [hf, hs, he, hsafe, hprobe, hbad]

/-- Witness for C5: `1:2:3` is of no keyword form, passes through
resolution unchanged, fails the strict pattern, and the cut call is
rejected with the invalid-time-format error; a well-formed offset
subtracts and floors. -/
theorem spec_c5_witness :
    resolveRelativeTime "1:2:3" 10 = "1:2:3" ∧
    (cutVideoHandler oAllOk "clip.mp4" "1:2:3" "00:00:05").1 =
      .badRequest "Invalid time format. Use HH:MM:SS." ∧
    resolveRelativeTime "end-00:00:03" 10 =
      secondsToTime (if 0 ≤ (10 : Int) - 3 then ((10 : Int) - 3).toNat else 0) :=
  ⟨spec_c5_theorem.2.2.2.2.2.1 "1:2:3" 10 (by decide) (by decide) (by decide) (by decide),
   spec_c5_theorem.2.2.2.2.2.2 oAllOk "clip.mp4" "1:2:3" "00:00:05"
     (pathJoin uploadDir "clip.mp4") (by decide) (by decide) (by decide) (by decide)
     (by decide) (by decide) (by decide),
   spec_c5_theorem.2.2.1 "end-00:00:03" 10 3 (by decide) (by decide)⟩

/-! ## Claim C6 -/

/-- C6 (corrected): all three pair-deriving operations reject a resolved end
not strictly above the resolved start; but an end beyond the probed duration
is clamped only in cut-video (whose handler then aborts on the undeclared
output variable rather than rejecting), is rejected as an invalid range in
slow-motion, and is passed through unchecked in remove-segment, which
proceeds to a successful run. -/
theorem spec_c6_theorem :
    (∀ o f s e ip, f ≠ "" → s ≠ "" → e ≠ "" → filenameUnsafe f = false →
      (getVideoPath o f).1 = some ip → o.probeOk = true →
      (timeFormatRegex (resolveRelativeTime s o.duration) &&
        timeFormatRegex (resolveRelativeTime e o.duration)) = true →
      jsLE (timeToSeconds (resolveRelativeTime e o.duration))
        (timeToSeconds (resolveRelativeTime s o.duration)) = true →
      (cutVideoHandler o f s e).1 = .badRequest "End time must be after start time.") ∧
    (∀ re D, jsGTNat (timeToSeconds re) D = true → cutAdjustedEnd re D = secondsToTime D) ∧
    (∀ o f s e ip, f ≠ "" → s ≠ "" → e ≠ "" → filenameUnsafe f = false →
      (getVideoPath o f).1 = some ip → o.probeOk = true →
      (timeFormatRegex (resolveRelativeTime s o.duration) &&
        timeFormatRegex (resolveRelativeTime e o.duration)) = true →
      jsLE (timeToSeconds (resolveRelativeTime e o.duration))
        (timeToSeconds (resolveRelativeTime s o.duration)) = false →
      (cutVideoHandler o f s e).1 = .refError "outputFilePath is not defined") ∧
    (∀ o f s e sp uid ip, ¬(f = "" ∨ s = "" ∨ e = "" ∨ sp = "") →
      (getVideoPath o f).1 = some ip → o.probeOk = true →
      (jsGE (timeToSeconds (normalizeTimeSM o.duration s))
          (timeToSeconds (normalizeTimeSM o.duration e)) ||
        jsGTNat (timeToSeconds (normalizeTimeSM o.duration e)) o.duration) = true →
      (slowMotionHandler o f s e sp uid).1 = .badRequest "Invalid time range.") ∧
    (∀ o f s e uid ip, f ≠ "" → s ≠ "" → e ≠ "" → filenameUnsafe f = false →
      (getVideoPath o f).1 = some ip → o.probeOk = true →
      (timeFormatRegex (removeSegParsedStart o.duration s) &&
        timeFormatRegex (removeSegParsedEnd o.duration e)) = true →
      jsLE (timeToSeconds (removeSegParsedEnd o.duration e))
        (timeToSeconds (removeSegParsedStart o.duration s)) = true →
      (removeSegmentHandler o f s e uid).1 = .badRequest "End time must be after start time.") ∧
    (∀ o f s e uid ip, f ≠ "" → s ≠ "" → e ≠ "" → filenameUnsafe f = false →
      (getVideoPath o f).1 = some ip → o.probeOk = true →
      (∀ k, o.stageOk k = true) →
      (timeFormatRegex (removeSegParsedStart o.duration s) &&
        timeFormatRegex (removeSegParsedEnd o.duration e)) = true →
      jsLE (timeToSeconds (removeSegParsedEnd o.duration e))
        (timeToSeconds (removeSegParsedStart o.duration s)) = false →
      removeSegParsedEnd o.duration e ≠ secondsToTime o.duration →
      ((removeSegmentHandler o f s e uid).1).isOk = true) := by
  refine ⟨?_, ?_, ?_, ?_, ?_, ?_⟩
  · intro o f s e ip hf hs he hsafe hip hprobe hreg hle
    simp only [cutVideoHandler, hip]
    simp [hf, hs, he, hsafe, hprobe, hreg, hle]
  · intro re D h
    simp [cutAdjustedEnd, h]
  · intro o f s e ip hf hs he hsafe hip hprobe hreg hle
    simp only [cutVideoHandler, hip]
    simp [hf, hs, he, hsafe, hprobe, hreg, hle]
  · intro o f s e sp uid ip hne hip hprobe hrange
    simp only [slowMotionHandler, hip]
    simp [hne, hprobe, hrange]
  · intro o f s e uid ip hf hs he hsafe hip hprobe hreg hle
    simp only [removeSegmentHandler, hip]
    simp [hf, hs, he, hsafe, hprobe, hreg, hle]
  · intro o f s e uid ip hf hs he hsafe hip hprobe hstage hreg hle hne
    have hB : removeSegPartB (removeSegParsedEnd o.duration e) (secondsToTime o.duration) uid
        (extname f) = some (cutsDir ++ "/keepB-" ++ uid ++ extname f) := by
      simp [removeSegPartB, hne]
    simp only [removeSegmentHandler, hip]
    simp only [hf, hs, he, hsafe, hprobe, hreg, hle, hB]
    simp [runStages_all_ok o hstage, hstage, Resp.isOk]

/-- Witness for C6: with `clip.mp4` probing at 10 s, a slow-motion request
ending at `00:00:20` is rejected as an invalid range, while the analogous
remove-segment request succeeds — the overshoot is neither clamped nor
rejected there; and the cut clamp maps `00:00:20` over duration 10 to
`00:00:10`. -/
theorem spec_c6_witness :
    (slowMotionHandler oAllOk "clip.mp4" "00:00:02" "00:00:20" "0.5" "w6").1 =
      .badRequest "Invalid time range." ∧
    ((removeSegmentHandler oAllOk "clip.mp4" "00:00:02" "00:00:20" "w6").1).isOk = true ∧
    cutAdjustedEnd "00:00:20" 10 = secondsToTime 10 :=
  ⟨spec_c6_theorem.2.2.2.1 oAllOk "clip.mp4" "00:00:02" "00:00:20" "0.5" "w6"
     (pathJoin uploadDir "clip.mp4") (by decide) (by decide) (by decide) (by decide),
   spec_c6_theorem.2.2.2.2.2 oAllOk "clip.mp4" "00:00:02" "00:00:20" "w6"
     (pathJoin uploadDir "clip.mp4") (by decide) (by decide) (by decide) (by decide)
     (by decide) (by decide) (fun k => rfl) (by decide) (by decide) (by decide),
   spec_c6_theorem.2.1 "00:00:20" 10 (by decide)⟩

/-! ## Claim C7 -/

theorem mem_removeSegPartA {st : Option Int} {uid ext p : String}
    (h : p ∈ (removeSegPartA st uid ext).toList) :
    p = cutsDir ++ "/keepA-" ++ uid ++ ext := by
  unfold removeSegPartA at h
  split at h <;> simp at h
  exact h

theorem mem_removeSegPartB {pe ev uid ext p : String}
    (h : p ∈ (removeSegPartB pe ev uid ext).toList) :
    p = cutsDir ++ "/keepB-" ++ uid ++ ext := by
  unfold removeSegPartB at h
  split at h <;> simp at h
  exact h

theorem no_ffmpeg_getVideoPath (o : Oracle) (f p : String) :
    FsEff.ffmpeg p ∉ (getVideoPath o f).2 := by
  simp only [getVideoPath]
  split
  · simp
  · split <;> simp

/-- C7 (corrected): in remove-segment the head copy stage is present iff the
resolved start is positive and the tail copy stage iff the resolved end
string differs from the formatted probed duration, and no remove-segment
transcoder invocation is anything but the head copy, the tail copy, or the
final concatenation — the middle stage is omitted entirely; in slow-motion,
however, head and tail presence is decided by the literal request strings
(`start ≠ "start"`, `end ≠ "end"`), not by `s > 0` and `e < D`. -/
theorem spec_c7_theorem :
    (∀ (n : Int) uid ext, ((removeSegPartA (some n) uid ext).isSome = true) ↔ 0 < n) ∧
    (∀ pe ev uid ext, ((removeSegPartB pe ev uid ext).isSome = true) ↔ pe ≠ ev) ∧
    (∀ st uid ext, ((slowMoPartA st uid ext).isSome = true) ↔ st ≠ "start") ∧
    (∀ et uid ext, ((slowMoPartC et uid ext).isSome = true) ↔ et ≠ "end") ∧
    (∀ o f s e uid p, FsEff.ffmpeg p ∈ (removeSegmentHandler o f s e uid).2 →
      p = cutsDir ++ "/keepA-" ++ uid ++ extname f ∨
      p = cutsDir ++ "/keepB-" ++ uid ++ extname f ∨
      p = cutsDir ++ "/" ++ ("removed-" ++ uid ++ extname f)) := by
  refine ⟨?_, ?_, ?_, ?_, ?_⟩
  · intro n uid ext
    by_cases h : (0 : Int) < n <;> simp [removeSegPartA, jsGT, h]
  · intro pe ev uid ext
    by_cases h : pe = ev <;> simp [removeSegPartB, h]
  · intro st uid ext
    by_cases h : st = "start" <;> simp [slowMoPartA, h]
  · intro et uid ext
    by_cases h : et = "end" <;> simp [slowMoPartC, h]
  · intro o f s e uid p hmem
    simp only [removeSegmentHandler] at hmem
    split at hmem
    · simp at hmem
    split at hmem
    · simp at hmem
    split at hmem
    · exact absurd hmem (no_ffmpeg_getVideoPath o f p)
    rename_i ip hip
    have hstages : ∀ (hq : FsEff.ffmpeg p ∈
        (runStages o 0 ((removeSegPartA (timeToSeconds (removeSegParsedStart o.duration s)) uid
            (extname f)).toList ++
          (removeSegPartB (removeSegParsedEnd o.duration e) (secondsToTime o.duration) uid
            (extname f)).toList)).2.2),
        p = cutsDir ++ "/keepA-" ++ uid ++ extname f ∨
        p = cutsDir ++ "/keepB-" ++ uid ++ extname f := by
      intro hq
      have hm := runStages_ffmpeg_mem o p _ 0 hq
      rcases List.mem_append.mp hm with hA | hB
      · exact Or.inl (mem_removeSegPartA hA)
      · exact Or.inr (mem_removeSegPartB hB)
    have htr0 : ∀ (h1 : FsEff.ffmpeg p ∈ (getVideoPath o f).2 ++ [FsEff.stat ip]), False := by
      intro h1
      rcases List.mem_append.mp h1 with h3 | h4
      · exact absurd h3 (no_ffmpeg_getVideoPath o f p)
      · simp at h4
    split at hmem
    · exact absurd hmem htr0
    split at hmem
    · exact absurd hmem htr0
    split at hmem
    · exact absurd hmem htr0
    split at hmem
    · rcases List.mem_append.mp hmem with h1 | h2
      · exact absurd h1 htr0
      · rcases hstages h2 with hA | hB
        · exact Or.inl hA
        · exact Or.inr (Or.inl hB)
    split at hmem
    · rcases List.mem_append.mp hmem with h1 | h2
      · exact absurd h1 htr0
      · rcases hstages h2 with hA | hB
        · exact Or.inl hA
        · exact Or.inr (Or.inl hB)
    split at hmem
    · rcases List.mem_append.mp hmem with h1 | h2
      · exact absurd h1 htr0
      · rcases List.mem_append.mp h2 with h5 | h6
        · rcases hstages h5 with hA | hB
          · exact Or.inl hA
          · exact Or.inr (Or.inl hB)
        · simp at h6
    · rcases List.mem_append.mp hmem with h1 | h2
      · rcases List.mem_append.mp h1 with h3 | h4
        · rcases List.mem_append.mp h3 with h5 | h6
          · rcases List.mem_append.mp h5 with h7 | h8
            · exact absurd h7 htr0
            · rcases List.mem_append.mp h8 with h9 | h10
              · rcases hstages h9 with hA | hB
                · exact Or.inl hA
                · exact Or.inr (Or.inl hB)
              · simp at h10
          · simp at h6
            exact Or.inr (Or.inr h6)
        · rcases List.mem_map.mp h4 with ⟨q, _, habs⟩
          exact absurd habs.symm (by simp)
      · simp at h2

/-- Witness for C7: in a run removing `[00:00:02, end]` from the 10-second
`clip.mp4`, every transcoder output is the head copy or the final artifact;
and the head-presence characterizations evaluate at concrete arguments. -/
theorem spec_c7_witness :
    ("uploads/cuts/keepA-u2.mp4" = cutsDir ++ "/keepA-" ++ "u2" ++ extname "clip.mp4" ∨
      "uploads/cuts/keepA-u2.mp4" = cutsDir ++ "/keepB-" ++ "u2" ++ extname "clip.mp4" ∨
      "uploads/cuts/keepA-u2.mp4" = cutsDir ++ "/" ++ ("removed-" ++ "u2" ++ extname "clip.mp4")) ∧
    ((removeSegPartA (some 2) "u2" ".mp4").isSome = true) ∧
    ((slowMoPartA "00:00:00" "u2" ".mp4").isSome = true) :=
  ⟨spec_c7_theorem.2.2.2.2 oAllOk "clip.mp4" "00:00:02" "end" "u2" "uploads/cuts/keepA-u2.mp4"
     (by decide),
   (spec_c7_theorem.1 2 "u2" ".mp4").mpr (by decide),
   (spec_c7_theorem.2.2.1 "00:00:00" "u2" ".mp4").mpr (by decide)⟩

/-! ## Claim C1 -/

/-- C1 (corrected): cut-video, export, and extract-audio delete no file on
any path, so their input assets survive (cut-video in fact never succeeds:
it crashes on the undeclared output variable before reaching the backend,
and export and extract-audio write their artifact on success); but
add-overlay, slow-motion, add-subtitles, and remove-segment, after writing
their result to a separate artifact, delete the original source asset file
on every successful run. -/
theorem spec_c1_theorem :
    (∀ o f s e, noDeletes (cutVideoHandler o f s e).2 = true ∧
      ((cutVideoHandler o f s e).1).isOk = false) ∧
    (∀ o f tf nn uid, noDeletes (exportHandler o f tf nn uid).2 = true ∧
      (((exportHandler o f tf nn uid).1).isOk = true →
        ∃ q, FsEff.ffmpeg q ∈ (exportHandler o f tf nn uid).2)) ∧
    (∀ o f fmt uid, noDeletes (extractAudioHandler o f fmt uid).2 = true ∧
      (((extractAudioHandler o f fmt uid).1).isOk = true →
        ∃ q, FsEff.ffmpeg q ∈ (extractAudioHandler o f fmt uid).2)) ∧
    (∀ o pr f uid ip, (getVideoPath o f).1 = some ip →
      ((addOverlayHandler o pr f uid).1).isOk = true →
      FsEff.ffmpeg (pathJoin cutsDir ("overlay-" ++ uid ++ extname f)) ∈
        (addOverlayHandler o pr f uid).2 ∧
      FsEff.deleteFile ip ∈ (addOverlayHandler o pr f uid).2) ∧
    (∀ o f s e sp uid ip, (getVideoPath o f).1 = some ip →
      ((slowMotionHandler o f s e sp uid).1).isOk = true →
      FsEff.ffmpeg (cutsDir ++ "/" ++ ("slowmo-" ++ uid ++ extname f)) ∈
        (slowMotionHandler o f s e sp uid).2 ∧
      FsEff.deleteFile ip ∈ (slowMotionHandler o f s e sp uid).2) ∧
    (∀ o f uid ip, (getVideoPath o f).1 = some ip →
      ((addSubtitlesHandler o f uid).1).isOk = true →
      FsEff.ffmpeg (pathJoin cutsDir ("subtitled-" ++ uid ++ extname f)) ∈
        (addSubtitlesHandler o f uid).2 ∧
      FsEff.deleteFile ip ∈ (addSubtitlesHandler o f uid).2) ∧
    (∀ o f s e uid ip, (getVideoPath o f).1 = some ip →
      ((removeSegmentHandler o f s e uid).1).isOk = true →
      FsEff.ffmpeg (cutsDir ++ "/" ++ ("removed-" ++ uid ++ extname f)) ∈
        (removeSegmentHandler o f s e uid).2 ∧
      FsEff.deleteFile ip ∈ (removeSegmentHandler o f s e uid).2) := by
  refine ⟨?_, ?_, ?_, ?_, ?_, ?_, ?_⟩
  · intro o f s e
    simp only [cutVideoHandler]
    repeat' split
    all_goals first
      | exact ⟨rfl, rfl⟩
      | exact ⟨noDeletes_getVideoPath o f, rfl⟩
  · intro o f tf nn uid
    constructor
    · simp only [exportHandler]
      repeat' split
      all_goals first
        | exact noDeletes_getVideoPath o f
        | (rw [noDeletes_append, noDeletes_getVideoPath o f]; rfl)
    · intro hok
      rcases hh : exportHandler o f tf nn uid with ⟨resp, tr⟩
      rw [hh] at hok
      simp only [exportHandler] at hh
      split at hh
      · injection hh with h1 h2; subst h1; simp [Resp.isOk] at hok
      split at hh
      · injection hh with h1 h2
        subst h1; subst h2
        exact ⟨_, List.mem_append_right _ (List.mem_singleton_self _)⟩
      · injection hh with h1 h2; subst h1; simp [Resp.isOk] at hok
  · intro o f fmt uid
    constructor
    · simp only [extractAudioHandler]
      repeat' split
      all_goals rfl
    · intro hok
      rcases hh : extractAudioHandler o f fmt uid with ⟨resp, tr⟩
      rw [hh] at hok
      simp only [extractAudioHandler] at hh
      split at hh
      · injection hh with h1 h2; subst h1; simp [Resp.isOk] at hok
      split at hh
      · injection hh with h1 h2; subst h1; simp [Resp.isOk] at hok
      split at hh
      · injection hh with h1 h2; subst h1; simp [Resp.isOk] at hok
      split at hh
      · injection hh with h1 h2
        subst h1; subst h2
        exact ⟨_, List.mem_cons_of_mem _ (List.mem_singleton_self _)⟩
      · injection hh with h1 h2; subst h1; simp [Resp.isOk] at hok
  · intro o pr f uid ip hip hok
    rcases hh : addOverlayHandler o pr f uid with ⟨resp, tr⟩
    rw [hh] at hok
    simp only [addOverlayHandler] at hh
    split at hh
    · injection hh with h1 h2; subst h1; simp [Resp.isOk] at hok
    split at hh
    · injection hh with h1 h2; subst h1; simp [Resp.isOk] at hok
    rename_i ip2 hip2
    rw [hip] at hip2
    injection hip2 with hip3
    subst hip3
    split at hh
    · injection hh with h1 h2; subst h1; simp [Resp.isOk] at hok
    split at hh
    · injection hh with h1 h2
      subst h1; subst h2
      constructor <;> simp
    · injection hh with h1 h2; subst h1; simp [Resp.isOk] at hok
  · intro o f s e sp uid ip hip hok
    rcases hh : slowMotionHandler o f s e sp uid with ⟨resp, tr⟩
    rw [hh] at hok
    simp only [slowMotionHandler] at hh
    split at hh
    · injection hh with h1 h2; subst h1; simp [Resp.isOk] at hok
    split at hh
    · injection hh with h1 h2; subst h1; simp [Resp.isOk] at hok
    rename_i ip2 hip2
    rw [hip] at hip2
    injection hip2 with hip3
    subst hip3
    split at hh
    · injection hh with h1 h2; subst h1; simp [Resp.isOk] at hok
    split at hh
    · injection hh with h1 h2; subst h1; simp [Resp.isOk] at hok
    split at hh
    · injection hh with h1 h2; subst h1; simp [Resp.isOk] at hok
    split at hh
    · injection hh with h1 h2; subst h1; simp [Resp.isOk] at hok
    split at hh
    · injection hh with h1 h2; subst h1; simp [Resp.isOk] at hok
    · injection hh with h1 h2
      subst h1; subst h2
      constructor <;> simp
  · intro o f uid ip hip hok
    rcases hh : addSubtitlesHandler o f uid with ⟨resp, tr⟩
    rw [hh] at hok
    simp only [addSubtitlesHandler] at hh
    split at hh
    · injection hh with h1 h2; subst h1; simp [Resp.isOk] at hok
    split at hh
    · injection hh with h1 h2; subst h1; simp [Resp.isOk] at hok
    rename_i ip2 hip2
    rw [hip] at hip2
    injection hip2 with hip3
    subst hip3
    split at hh
    · injection hh with h1 h2; subst h1; simp [Resp.isOk] at hok
    split at hh
    · injection hh with h1 h2; subst h1; simp [Resp.isOk] at hok
    split at hh
    · injection hh with h1 h2; subst h1; simp [Resp.isOk] at hok
    · injection hh with h1 h2
      subst h1; subst h2
      constructor <;> simp
  · intro o f s e uid ip hip hok
    rcases hh : removeSegmentHandler o f s e uid with ⟨resp, tr⟩
    rw [hh] at hok
    simp only [removeSegmentHandler] at hh
    split at hh
    · injection hh with h1 h2; subst h1; simp [Resp.isOk] at hok
    split at hh
    · injection hh with h1 h2; subst h1; simp [Resp.isOk] at hok
    split at hh
    · injection hh with h1 h2; subst h1; simp [Resp.isOk] at hok
    rename_i ip2 hip2
    rw [hip] at hip2
    injection hip2 with hip3
    subst hip3
    split at hh
    · injection hh with h1 h2; subst h1; simp [Resp.isOk] at hok
    split at hh
    · injection hh with h1 h2; subst h1; simp [Resp.isOk] at hok
    split at hh
    · injection hh with h1 h2; subst h1; simp [Resp.isOk] at hok
    split at hh
    · injection hh with h1 h2; subst h1; simp [Resp.isOk] at hok
    split at hh
    · injection hh with h1 h2; subst h1; simp [Resp.isOk] at hok
    split at hh
    · injection hh with h1 h2; subst h1; simp [Resp.isOk] at hok
    · injection hh with h1 h2
      subst h1; subst h2
      constructor <;> simp

/-- Witness for C1 at concrete successful runs: an add-overlay success over
`clip.mp4` writes the `overlay-u4.mp4` artifact and deletes the original
`uploads/videos/clip.mp4`. -/
theorem spec_c1_witness :
    FsEff.ffmpeg (pathJoin cutsDir ("overlay-" ++ "u4" ++ extname "clip.mp4")) ∈
      (addOverlayHandler oAllOk "Add \x27Hi\x27 there" "clip.mp4" "u4").2 ∧
    FsEff.deleteFile (pathJoin uploadDir "clip.mp4") ∈
      (addOverlayHandler oAllOk "Add \x27Hi\x27 there" "clip.mp4" "u4").2 :=
  spec_c1_theorem.2.2.2.1 oAllOk "Add \x27Hi\x27 there" "clip.mp4" "u4"
    (pathJoin uploadDir "clip.mp4") (by decide) (by decide)

/-! ## Claim C2 -/

theorem head_append (l l2 : List FsEff) (x : FsEff) (h : l.head? = some x) :
    (l ++ l2).head? = some x := by
  cases l
  · simp at h
  · simpa using h

/-- C2 (corrected): cut-video, add-overlay, add-subtitles, and remove-segment
reject a filename containing `..` or a path separator with a validation
error before resolving any path or touching any file; but slow-motion,
extract-audio, and export perform no such check — whatever the filename,
their first effect is an existence probe of the path obtained by joining the
raw filename under the uploads directory. -/
theorem spec_c2_theorem :
    (∀ o f s e, f ≠ "" → s ≠ "" → e ≠ "" → filenameUnsafe f = true →
      cutVideoHandler o f s e = (.badRequest "Invalid filename.", [])) ∧
    (∀ o pr f uid, filenameUnsafe f = true →
      addOverlayHandler o pr f uid = (.badRequest "Invalid prompt or filename.", [])) ∧
    (∀ o f uid, filenameUnsafe f = true →
      addSubtitlesHandler o f uid = (.badRequest "Invalid filename", [])) ∧
    (∀ o f s e uid, f ≠ "" → s ≠ "" → e ≠ "" → filenameUnsafe f = true →
      removeSegmentHandler o f s e uid = (.badRequest "Invalid filename.", [])) ∧
    (∀ o f s e sp uid, ¬(f = "" ∨ s = "" ∨ e = "" ∨ sp = "") →
      ((slowMotionHandler o f s e sp uid).2).head? = some (.stat (pathJoin uploadDir f))) ∧
    (∀ o f fmt uid, f ≠ "" →
      ((extractAudioHandler o f fmt uid).2).head? = some (.stat (pathJoin uploadDir f))) ∧
    (∀ o f tf nn uid,
      ((exportHandler o f tf nn uid).2).head? = some (.stat (pathJoin uploadDir f))) := by
  refine ⟨?_, ?_, ?_, ?_, ?_, ?_, ?_⟩
  · intro o f s e hf hs he hu
    simp only [cutVideoHandler]
    rw [if_neg (by simp [hf, hs, he]), if_pos hu]
  · intro o pr f uid hu
    simp only [addOverlayHandler]
    rw [if_pos (Or.inr (Or.inr hu))]
  · intro o f uid hu
    simp only [addSubtitlesHandler]
    rw [if_pos (Or.inr hu)]
  · intro o f s e uid hf hs he hu
    simp only [removeSegmentHandler]
    rw [if_neg (by simp [hf, hs, he]), if_pos hu]
  · intro o f s e sp uid hne
    simp only [slowMotionHandler]
    rw [if_neg hne]
    repeat' split
    all_goals first
      | exact head_getVideoPath o f
      | (simp only [List.append_assoc]
         exact head_append _ _ _ (head_getVideoPath o f))
  · intro o f fmt uid hf
    simp only [extractAudioHandler]
    rw [if_neg hf]
    repeat' split
    all_goals rfl
  · intro o f tf nn uid
    simp only [exportHandler]
    repeat' split
    all_goals first
      | exact head_getVideoPath o f
      | (simp only [List.append_assoc]
         exact head_append _ _ _ (head_getVideoPath o f))

/-- Witness for C2: a traversal filename is rejected up front by cut-video,
while slow-motion resolves and probes the same raw filename. -/
theorem spec_c2_witness :
    cutVideoHandler oAllOk "../evil.mp4" "00:00:01" "00:00:03" =
      (.badRequest "Invalid filename.", []) ∧
    ((slowMotionHandler oAllOk "../evil.mp4" "00:00:01" "00:00:03" "0.5" "w2").2).head? =
      some (.stat (pathJoin uploadDir "../evil.mp4")) :=
  ⟨spec_c2_theorem.1 oAllOk "../evil.mp4" "00:00:01" "00:00:03"
     (by decide) (by decide) (by decide) (by decide),
   spec_c2_theorem.2.2.2.2.1 oAllOk "../evil.mp4" "00:00:01" "00:00:03" "0.5" "w2"
     (by decide)⟩

end Promptify
